import Mathlib

/-!
Verification of the real-time audio segmentation and transcription-dispatch
pipeline of the Oatmeal desktop app.

The embedded code is `apps/desktop/src/hooks/useAudio.ts`:
* `handleAudioFrame` (lines 78-127): per-frame synchronous processing —
  frame counting, sample-rate latching, sample accumulation, level-meter
  push, VAD update with hysteresis, and the flush-policy evaluation;
* `flushTranscription` (lines 50-76): the dispatch.  A JavaScript `async`
  function body runs synchronously up to its first `await`, so lines 51-56
  (guard re-check, setting `transcribing`, taking the whole buffer) execute
  atomically within the frame handler; the `await invoke(...)` suspension
  and the code after it (lines 57-75) run when the call completes.  The
  embedding therefore splits the dispatch into a synchronous prefix
  (`flushTranscription` below) and a completion step
  (`completeTranscription` below), and a run of the pipeline is a fold over
  a list of `Event`s (frame arrivals and call completions).

JavaScript numbers are modelled as rationals (samples, loudness,
configuration) and integers (millisecond timestamps).  JavaScript
truthiness is modelled explicitly where the source relies on it: the
`sampleRateRef` and `lastVoiceMsRef` cells hold `Option` values, and `0`
is falsy for both (`!sr`, `lastVoiceMsRef.current ?`, line 53/117/120).

The level meter (lines 89-93) takes a square root, which is irrational in
general, so the pipeline embedding carries each frame's normalized
loudness as a field of the frame (`AudioFrame.level`) and the level-meter
arithmetic itself is verified separately over `ℝ` (`rmsLevel`,
`normalizedLevel`).
-/

/- The `Rat` arithmetic of Batteries is `@[irreducible]`, which blocks
`decide` on concrete pipeline runs; restore default reducibility so that
concrete states evaluate inside the kernel. -/
unseal Rat.add Rat.mul Rat.inv Rat.sub Rat.ofScientific

set_option maxRecDepth 4000

namespace Oatmeal

/-- An audio frame (`AudioFrame`, useAudio.ts lines 6-10): raw samples, a
millisecond timestamp and a sample rate.  `level` is the Level Meter's
normalized loudness output for this frame (the `normalized` local of
lines 89-93), carried alongside the samples because its square root is
irrational in general; the meter itself is verified over `ℝ` below. -/
structure AudioFrame where
  data : List ℚ
  timestamp : ℤ
  sample_rate : ℕ
  level : ℚ
deriving DecidableEq, Repr

/-- The per-session mutable cells of `useAudio` (lines 14-26):
`frameCount`, `transcript`, `audioBufferRef`, `levels`,
`sampleRateRef`, `lastSnippetRef`, `speakingRef`, `lastVoiceMsRef`,
`transcribingRef`.  `sampleRateRef` and `lastVoiceMsRef` start as `null`,
hence the `Option` types. -/
structure SessionState where
  frameCount : ℕ
  transcript : String
  audioBuffer : List ℚ
  levels : List ℚ
  sampleRate : Option ℕ
  lastSnippet : String
  speaking : Bool
  lastVoiceMs : Option ℤ
  transcribing : Bool
deriving DecidableEq, Repr

/-- JavaScript truthiness of the `sampleRateRef` cell: `null` and `0` are
falsy (`!sampleRateRef.current`, lines 80 and 53, and `sr ? _ : _`,
lines 118-121). -/
def jsTruthyNat : Option ℕ → Bool
  | none => false
  | some n => n != 0

/-- JavaScript truthiness of the `lastVoiceMsRef` cell: `null` and `0` are
falsy (`lastVoiceMsRef.current ? _ : _`, line 120). -/
def jsTruthyInt : Option ℤ → Bool
  | none => false
  | some v => v != 0

/-- Line 79: `setFrameCount(prev => prev + 1)`. -/
def bumpCount (s : SessionState) : SessionState :=
  { s with frameCount := s.frameCount + 1 }

/-- Lines 80-83: latch the sample rate from the first frame whose arrival
finds the cell falsy. -/
def latchSampleRate (s : SessionState) (f : AudioFrame) : SessionState :=
  if jsTruthyNat s.sampleRate then s else { s with sampleRate := some f.sample_rate }

/-- Lines 94-99: append the new level and keep only the most recent 60
entries (`next.splice(0, next.length - 60)`). -/
def pushLevel (prev : List ℚ) (v : ℚ) : List ℚ :=
  let next := prev ++ [v]
  if 60 < next.length then next.drop (next.length - 60) else next

/-- Line 86 (`audioBufferRef.current.push(...frame.data)`) together with
the level-window push of lines 94-99. -/
def accumulate (s : SessionState) (f : AudioFrame) : SessionState :=
  { s with audioBuffer := s.audioBuffer ++ f.data, levels := pushLevel s.levels f.level }

/-- Line 102: the start-speaking threshold. -/
def vadOn : ℚ := 3 / 100

/-- Line 103: the stop-speaking (hysteresis) threshold. -/
def vadOff : ℚ := 2 / 100

/-- Lines 104-106: enter `Speaking` when loudness reaches the on
threshold. -/
def vadEnter (s : SessionState) (normalized : ℚ) : SessionState :=
  if !s.speaking && vadOn ≤ normalized then { s with speaking := true } else s

/-- Lines 107-113: while `Speaking`, refresh `lastVoiceMs` on voiced
frames, and initialize it if it was never set. -/
def vadVoice (s : SessionState) (normalized : ℚ) (nowMs : ℤ) : SessionState :=
  if s.speaking then
    if vadOff ≤ normalized then { s with lastVoiceMs := some nowMs }
    else if s.lastVoiceMs = none then { s with lastVoiceMs := some nowMs }
    else s
  else s

/-- The synchronous state update a frame performs before the flush-policy
evaluation (lines 79-113). -/
def frameSync (s : SessionState) (f : AudioFrame) : SessionState :=
  vadVoice (vadEnter (accumulate (latchSampleRate (bumpCount s) f) f) f.level) f.level f.timestamp

/-- Line 116: `Math.max(1, Math.min(6, Number(chunkSeconds ?? 2.5)))`. -/
def clampChunk (v : ℚ) : ℚ := max 1 (min 6 v)

/-- SettingsPanel.tsx line 114: `Math.max(1, Math.min(6, raw))`, the clamp
applied to the number input before the draft settings are updated. -/
def settingsClampChunk (raw : ℚ) : ℚ := max 1 (min 6 raw)

/-- Line 118: `neededSamples = sr ? Math.floor(sr * cs) : 0`. -/
def neededSamples (cs0 : ℚ) (s : SessionState) : ℤ :=
  if jsTruthyNat s.sampleRate then ⌊((s.sampleRate.getD 0 : ℕ) : ℚ) * clampChunk cs0⌋ else 0

/-- Line 119: `enoughForChunk = sr ? buffer.length >= neededSamples : false`. -/
def durationTrigger (cs0 : ℚ) (s : SessionState) : Bool :=
  if jsTruthyNat s.sampleRate then
    decide (neededSamples cs0 s ≤ (s.audioBuffer.length : ℤ))
  else false

/-- Line 120, applied to line 122's comparison: `silenceGapMs =
lastVoiceMs ? nowMs - lastVoiceMs : Infinity` and `silenceGapMs >= 450`.
A falsy cell (`null` or timestamp `0`) yields an infinite gap, which
trivially satisfies the comparison. -/
def silenceGapGE450 (s : SessionState) (nowMs : ℤ) : Bool :=
  if jsTruthyInt s.lastVoiceMs then decide (450 ≤ nowMs - s.lastVoiceMs.getD 0) else true

/-- Line 121: `minUtteranceSamples = sr ? Math.floor(sr * Math.min(1.0, cs)) : 0`. -/
def minUtteranceSamples (cs0 : ℚ) (s : SessionState) : ℤ :=
  if jsTruthyNat s.sampleRate then ⌊((s.sampleRate.getD 0 : ℕ) : ℚ) * min 1 (clampChunk cs0)⌋ else 0

/-- Line 122: `pauseDetected = speaking && silenceGapMs >= 450 &&
buffer.length >= minUtteranceSamples`. -/
def pauseTrigger (cs0 : ℚ) (s : SessionState) (nowMs : ℤ) : Bool :=
  s.speaking && silenceGapGE450 s nowMs &&
    decide (minUtteranceSamples cs0 s ≤ (s.audioBuffer.length : ℤ))

/-- A chunk handed to the transcription call: the captured samples and the
sample rate passed to `invoke('transcribe_audio', ...)`. -/
abbrev Chunk := List ℚ × ℕ

/-- The pipeline state plus the dispatch bookkeeping: `inflight` is the
list of transcription calls currently outstanding (the code intends at
most one — proved below, not assumed: a dispatch appends to it), and
`flushed` is the history of every chunk ever taken by a flush, kept to
state conservation of samples. -/
structure SystemState where
  sess : SessionState
  inflight : List Chunk
  flushed : List (List ℚ)
deriving DecidableEq, Repr

/-- The synchronous prefix of `flushTranscription` (lines 50-56): the
re-entrancy guard, the falsy-sample-rate / empty-buffer no-op, then
setting `transcribing` and taking the whole buffer, all before the
`await`.  The taken chunk becomes an outstanding call. -/
def flushTranscription (st : SystemState) : SystemState :=
  if st.sess.transcribing then st
  else if !jsTruthyNat st.sess.sampleRate || st.sess.audioBuffer.isEmpty then st
  else
    { sess := { st.sess with transcribing := true, audioBuffer := [] },
      inflight := st.inflight ++ [(st.sess.audioBuffer, st.sess.sampleRate.getD 0)],
      flushed := st.flushed ++ [st.sess.audioBuffer] }

/-- `handleAudioFrame` (lines 78-127): the synchronous frame update, the
flush-policy evaluation of lines 116-122, and the guarded dispatch of
lines 124-126. -/
def handleAudioFrame (cs0 : ℚ) (st : SystemState) (f : AudioFrame) : SystemState :=
  if (durationTrigger cs0 (frameSync st.sess f)
        || pauseTrigger cs0 (frameSync st.sess f) f.timestamp)
      && !(frameSync st.sess f).transcribing then
    flushTranscription { st with sess := frameSync st.sess f }
  else { st with sess := frameSync st.sess f }

/-- JavaScript `String.prototype.trim` (line 64's `.trim()`): drop
whitespace from both ends, modelled structurally over the string's
characters so that it evaluates inside the kernel. -/
def jsTrim (s : String) : String :=
  ⟨((s.data.dropWhile Char.isWhitespace).reverse.dropWhile Char.isWhitespace).reverse⟩

/-- Lines 57-68: the continuation after the transcription call resolves.
`none` is a rejected call (the `catch` arm mutates nothing); `some text`
is a resolved call: trim, drop empty or repeated results, otherwise
append space-separated (`prev + (prev ? ' ' : '') + cleaned`) and record
the accepted text. -/
def applyTranscriptionResult (s : SessionState) (result : Option String) : SessionState :=
  match result with
  | none => s
  | some text =>
    if jsTrim text ≠ "" ∧ jsTrim text ≠ s.lastSnippet then
      { s with
        transcript := s.transcript ++ (if s.transcript = "" then "" else " ") ++ jsTrim text,
        lastSnippet := jsTrim text }
    else s

/-- Lines 71-75: the `finally` block — reset the VAD to silent and drop
the guard. -/
def finalizeDispatch (s : SessionState) : SessionState :=
  { s with speaking := false, lastVoiceMs := none, transcribing := false }

/-- Completion of an outstanding transcription call: the `try`/`catch`
body followed by the `finally` block, and the call leaves the outstanding
list.  A completion with no outstanding call is a no-op (it cannot occur
in a run, but the model is total). -/
def completeTranscription (st : SystemState) (result : Option String) : SystemState :=
  match st.inflight with
  | [] => st
  | _ :: rest =>
    { st with
      sess := finalizeDispatch (applyTranscriptionResult st.sess result),
      inflight := rest }

/-- An observable event of one recording session: a frame arrival or the
completion of the outstanding transcription call (`none` = failure). -/
inductive Event where
  | frame (f : AudioFrame)
  | complete (result : Option String)
deriving DecidableEq, Repr

/-- One step of the single-threaded cooperative event loop. -/
def step (cs0 : ℚ) (st : SystemState) (e : Event) : SystemState :=
  match e with
  | .frame f => handleAudioFrame cs0 st f
  | .complete r => completeTranscription st r

/-- The session cells as initialized at lines 14-26 / reset at
`resetHotRefs` (lines 42-48). -/
def initSession : SessionState :=
  { frameCount := 0, transcript := "", audioBuffer := [], levels := [],
    sampleRate := none, lastSnippet := "", speaking := false,
    lastVoiceMs := none, transcribing := false }

/-- A fresh recording session with no outstanding call. -/
def initSystem : SystemState :=
  { sess := initSession, inflight := [], flushed := [] }

/-- A run of the pipeline over a list of events, from a fresh session. -/
def run (cs0 : ℚ) (evs : List Event) : SystemState :=
  evs.foldl (step cs0) initSystem

/-- The samples a list of events ever appends to the pending buffer, in
arrival order. -/
def framesData (evs : List Event) : List ℚ :=
  (evs.map fun e => match e with | .frame f => f.data | .complete _ => []).flatten

/-- The samples one event appends to the pending buffer. -/
def eventData : Event → List ℚ
  | .frame f => f.data
  | .complete _ => []

/-- The dispatch-bookkeeping invariant: at most one call is outstanding,
and `transcribing` is true exactly while one is. -/
def Inv (st : SystemState) : Prop :=
  st.inflight.length ≤ 1 ∧ (st.sess.transcribing = true ↔ st.inflight ≠ [])

/-- Lines 89-91: root-mean-square of a frame's samples,
`Math.sqrt(frame.data.reduce((acc, v) => acc + v*v, 0) / Math.max(1, frame.data.length))`,
over the reals. -/
noncomputable def rmsLevel (data : List ℝ) : ℝ :=
  Real.sqrt (data.foldl (fun acc v => acc + v * v) 0 / max 1 (data.length : ℝ))

/-- Line 93: `rms > 1 ? Math.min(1, rms / 32767) : Math.min(1, rms)`. -/
noncomputable def normalizedLevel (data : List ℝ) : ℝ :=
  if 1 < rmsLevel data then min 1 (rmsLevel data / 32767) else min 1 (rmsLevel data)

/-! ### Frame-step projection lemmas -/

theorem frameSync_transcribing (s : SessionState) (f : AudioFrame) :
    (frameSync s f).transcribing = s.transcribing := by
  unfold frameSync vadVoice vadEnter accumulate latchSampleRate bumpCount
  split_ifs <;> rfl

theorem frameSync_transcript (s : SessionState) (f : AudioFrame) :
    (frameSync s f).transcript = s.transcript := by
  unfold frameSync vadVoice vadEnter accumulate latchSampleRate bumpCount
  split_ifs <;> rfl

theorem frameSync_lastSnippet (s : SessionState) (f : AudioFrame) :
    (frameSync s f).lastSnippet = s.lastSnippet := by
  unfold frameSync vadVoice vadEnter accumulate latchSampleRate bumpCount
  split_ifs <;> rfl

theorem frameSync_audioBuffer (s : SessionState) (f : AudioFrame) :
    (frameSync s f).audioBuffer = s.audioBuffer ++ f.data := by
  unfold frameSync vadVoice vadEnter accumulate latchSampleRate bumpCount
  split_ifs <;> rfl

theorem frameSync_levels (s : SessionState) (f : AudioFrame) :
    (frameSync s f).levels = pushLevel s.levels f.level := by
  unfold frameSync vadVoice vadEnter accumulate latchSampleRate bumpCount
  split_ifs <;> rfl

theorem frameSync_frameCount (s : SessionState) (f : AudioFrame) :
    (frameSync s f).frameCount = s.frameCount + 1 := by
  unfold frameSync vadVoice vadEnter accumulate latchSampleRate bumpCount
  split_ifs <;> rfl

theorem frameSync_speaking (s : SessionState) (f : AudioFrame) :
    (frameSync s f).speaking = (s.speaking || decide (vadOn ≤ f.level)) := by
  unfold frameSync vadVoice vadEnter accumulate latchSampleRate bumpCount
  split_ifs <;> simp_all

/-! ### Dispatch lemmas -/

theorem flushTranscription_of_transcribing (st : SystemState)
    (h : st.sess.transcribing = true) : flushTranscription st = st := by
  unfold flushTranscription
  simp [h]

theorem flushTranscription_fire (st : SystemState)
    (h1 : st.sess.transcribing = false) (h2 : jsTruthyNat st.sess.sampleRate = true)
    (h3 : st.sess.audioBuffer ≠ []) :
    flushTranscription st =
      ⟨{ st.sess with transcribing := true, audioBuffer := [] },
       st.inflight ++ [(st.sess.audioBuffer, st.sess.sampleRate.getD 0)],
       st.flushed ++ [st.sess.audioBuffer]⟩ := by
  unfold flushTranscription
  simp [h1, h2, h3]

theorem flushTranscription_conserve (st : SystemState) :
    (flushTranscription st).flushed.flatten ++ (flushTranscription st).sess.audioBuffer
      = st.flushed.flatten ++ st.sess.audioBuffer := by
  unfold flushTranscription
  split_ifs <;> simp

theorem handleAudioFrame_conserve (cs0 : ℚ) (st : SystemState) (f : AudioFrame) :
    (handleAudioFrame cs0 st f).flushed.flatten ++ (handleAudioFrame cs0 st f).sess.audioBuffer
      = st.flushed.flatten ++ st.sess.audioBuffer ++ f.data := by
  unfold handleAudioFrame
  split_ifs with hc
  · rw [flushTranscription_conserve]
    simp [frameSync_audioBuffer, List.append_assoc]
  · simp [frameSync_audioBuffer, List.append_assoc]

theorem applyTranscriptionResult_audioBuffer (s : SessionState) (r : Option String) :
    (applyTranscriptionResult s r).audioBuffer = s.audioBuffer := by
  unfold applyTranscriptionResult
  cases r with
  | none => rfl
  | some text =>
    dsimp only
    split_ifs <;> rfl

theorem applyTranscriptionResult_sampleRate (s : SessionState) (r : Option String) :
    (applyTranscriptionResult s r).sampleRate = s.sampleRate := by
  unfold applyTranscriptionResult
  cases r with
  | none => rfl
  | some text =>
    dsimp only
    split_ifs <;> rfl

theorem applyTranscriptionResult_levels (s : SessionState) (r : Option String) :
    (applyTranscriptionResult s r).levels = s.levels := by
  unfold applyTranscriptionResult
  cases r with
  | none => rfl
  | some text =>
    dsimp only
    split_ifs <;> rfl

theorem applyTranscriptionResult_frameCount (s : SessionState) (r : Option String) :
    (applyTranscriptionResult s r).frameCount = s.frameCount := by
  unfold applyTranscriptionResult
  cases r with
  | none => rfl
  | some text =>
    dsimp only
    split_ifs <;> rfl

theorem completeTranscription_audioBuffer (st : SystemState) (r : Option String) :
    (completeTranscription st r).sess.audioBuffer = st.sess.audioBuffer := by
  unfold completeTranscription
  split
  · rfl
  · show (finalizeDispatch _).audioBuffer = _
    unfold finalizeDispatch
    simp [applyTranscriptionResult_audioBuffer]

theorem completeTranscription_flushed (st : SystemState) (r : Option String) :
    (completeTranscription st r).flushed = st.flushed := by
  unfold completeTranscription
  split <;> rfl

/-! ### The at-most-one-outstanding invariant -/

theorem inv_init : Inv initSystem := by
  constructor
  · simp [initSystem]
  · simp [initSystem, initSession]

theorem inv_flushTranscription (st : SystemState) (h : Inv st) :
    Inv (flushTranscription st) := by
  unfold flushTranscription
  split_ifs with h1 h2
  · exact h
  · exact h
  · have hemp : st.inflight = [] := by
      by_contra hne
      exact h1 (h.2.mpr hne)
    constructor
    · simp [hemp]
    · simp

theorem inv_handleAudioFrame (cs0 : ℚ) (st : SystemState) (f : AudioFrame) (h : Inv st) :
    Inv (handleAudioFrame cs0 st f) := by
  have h1 : Inv { st with sess := frameSync st.sess f } := by
    refine ⟨h.1, ?_⟩
    show (frameSync st.sess f).transcribing = true ↔ _
    rw [frameSync_transcribing]
    exact h.2
  unfold handleAudioFrame
  split_ifs with hc
  · exact inv_flushTranscription _ h1
  · exact h1

theorem inv_completeTranscription (st : SystemState) (r : Option String) (h : Inv st) :
    Inv (completeTranscription st r) := by
  unfold completeTranscription
  split
  · exact h
  · next c rest heq =>
    have hrest : rest = [] := by
      have := h.1
      rw [heq] at this
      simpa using this
    subst hrest
    constructor
    · simp
    · simp [finalizeDispatch]

theorem inv_step (cs0 : ℚ) (st : SystemState) (e : Event) (h : Inv st) :
    Inv (step cs0 st e) := by
  cases e with
  | frame f => exact inv_handleAudioFrame cs0 st f h
  | complete r => exact inv_completeTranscription st r h

theorem foldl_pred {P : SystemState → Prop} (cs0 : ℚ)
    (hstep : ∀ st e, P st → P (step cs0 st e)) :
    ∀ (evs : List Event) (st : SystemState), P st → P (evs.foldl (step cs0) st) := by
  intro evs
  induction evs with
  | nil => intro st h; exact h
  | cons e evs ih => intro st h; exact ih _ (hstep _ _ h)

theorem inv_run (cs0 : ℚ) (evs : List Event) : Inv (run cs0 evs) :=
  foldl_pred cs0 (inv_step cs0) evs initSystem inv_init

/-! ### Conservation of samples -/

theorem step_conserve (cs0 : ℚ) (st : SystemState) (e : Event) :
    (step cs0 st e).flushed.flatten ++ (step cs0 st e).sess.audioBuffer
      = st.flushed.flatten ++ st.sess.audioBuffer ++ eventData e := by
  cases e with
  | frame f => exact handleAudioFrame_conserve cs0 st f
  | complete r =>
    show (completeTranscription st r).flushed.flatten
        ++ (completeTranscription st r).sess.audioBuffer = _
    rw [completeTranscription_flushed, completeTranscription_audioBuffer]
    simp [eventData]

theorem framesData_cons (e : Event) (evs : List Event) :
    framesData (e :: evs) = eventData e ++ framesData evs := by
  cases e <;> simp [framesData, eventData]

theorem foldl_conserve (cs0 : ℚ) :
    ∀ (evs : List Event) (st : SystemState),
      (evs.foldl (step cs0) st).flushed.flatten
          ++ (evs.foldl (step cs0) st).sess.audioBuffer
        = st.flushed.flatten ++ st.sess.audioBuffer ++ framesData evs := by
  intro evs
  induction evs with
  | nil => intro st; simp [framesData]
  | cons e evs ih =>
    intro st
    simp only [List.foldl_cons]
    rw [ih, step_conserve, framesData_cons, List.append_assoc]

/-! ### More dispatch characterizations -/

theorem handleAudioFrame_of_transcribing (cs0 : ℚ) (st : SystemState) (f : AudioFrame)
    (h : st.sess.transcribing = true) :
    handleAudioFrame cs0 st f = { st with sess := frameSync st.sess f } := by
  unfold handleAudioFrame
  rw [frameSync_transcribing, h]
  simp

theorem handleAudioFrame_cases (cs0 : ℚ) (st : SystemState) (f : AudioFrame) :
    handleAudioFrame cs0 st f = { st with sess := frameSync st.sess f } ∨
    handleAudioFrame cs0 st f
      = ⟨{ frameSync st.sess f with transcribing := true, audioBuffer := [] },
         st.inflight
           ++ [((frameSync st.sess f).audioBuffer, (frameSync st.sess f).sampleRate.getD 0)],
         st.flushed ++ [(frameSync st.sess f).audioBuffer]⟩ := by
  unfold handleAudioFrame flushTranscription
  split_ifs
  · exact Or.inl rfl
  · exact Or.inl rfl
  · exact Or.inr rfl
  · exact Or.inl rfl

/-! ### Claim theorems -/

/-- C1: at most one transcription call is outstanding at any instant of
any run, and a frame processed while `transcribing` is true accumulates
its samples into the pending buffer without triggering a second dispatch. -/
theorem transcription_at_most_one_outstanding (cs0 : ℚ) (evs : List Event) (f : AudioFrame) :
    (run cs0 evs).inflight.length ≤ 1 ∧
    ((run cs0 evs).sess.transcribing = true →
      (handleAudioFrame cs0 (run cs0 evs) f).inflight = (run cs0 evs).inflight ∧
      (handleAudioFrame cs0 (run cs0 evs) f).sess.audioBuffer
        = (run cs0 evs).sess.audioBuffer ++ f.data) := by
  refine ⟨(inv_run cs0 evs).1, fun h => ?_⟩
  rw [handleAudioFrame_of_transcribing cs0 (run cs0 evs) f h]
  exact ⟨rfl, frameSync_audioBuffer _ _⟩

/-- Witness for C1: a one-frame run that dispatches (so `transcribing` is
true), followed by a frame that accumulates without dispatching. -/
theorem transcription_at_most_one_outstanding_witness :
    (run 1 [Event.frame ⟨[0], 1, 1, 0⟩]).sess.transcribing = true ∧
    (handleAudioFrame 1 (run 1 [Event.frame ⟨[0], 1, 1, 0⟩]) ⟨[5], 2, 1, 0⟩).inflight
        = (run 1 [Event.frame ⟨[0], 1, 1, 0⟩]).inflight ∧
    (handleAudioFrame 1 (run 1 [Event.frame ⟨[0], 1, 1, 0⟩]) ⟨[5], 2, 1, 0⟩).sess.audioBuffer
        = (run 1 [Event.frame ⟨[0], 1, 1, 0⟩]).sess.audioBuffer ++ [5] :=
  ⟨by decide,
   (transcription_at_most_one_outstanding 1 [Event.frame ⟨[0], 1, 1, 0⟩]
      ⟨[5], 2, 1, 0⟩).2 (by decide)⟩

/-- C2: a frame that dispatches a flush leaves the post-frame state with
`transcribing` true and the pending buffer empty (the guard and the
buffer hand-off happen before any suspension point, i.e. within the same
synchronous step); a frame that does not dispatch only appends the
frame's samples, and a completion never touches the buffer — a flush
never partially drains it. -/
theorem flush_atomic_and_full_drain (cs0 : ℚ) (st : SystemState) (f : AudioFrame)
    (r : Option String) :
    ((handleAudioFrame cs0 st f).inflight ≠ st.inflight →
      (handleAudioFrame cs0 st f).sess.transcribing = true ∧
      (handleAudioFrame cs0 st f).sess.audioBuffer = []) ∧
    ((handleAudioFrame cs0 st f).inflight = st.inflight →
      (handleAudioFrame cs0 st f).sess.audioBuffer = st.sess.audioBuffer ++ f.data) ∧
    (completeTranscription st r).sess.audioBuffer = st.sess.audioBuffer := by
  refine ⟨?_, ?_, completeTranscription_audioBuffer st r⟩
  · intro hne
    rcases handleAudioFrame_cases cs0 st f with h | h
    · rw [h] at hne
      exact absurd rfl hne
    · rw [h]
      exact ⟨rfl, rfl⟩
  · intro heq
    rcases handleAudioFrame_cases cs0 st f with h | h
    · rw [h]
      exact frameSync_audioBuffer _ _
    · rw [h] at heq
      exfalso
      simpa using congrArg List.length heq

/-- Witness for C2: a dispatching frame on a fresh session (buffer ends
empty with `transcribing` set), and a non-dispatching frame (buffer grows
by exactly the frame's samples). -/
theorem flush_atomic_and_full_drain_witness :
    ((handleAudioFrame 1 initSystem ⟨[0], 1, 1, 0⟩).sess.transcribing = true ∧
     (handleAudioFrame 1 initSystem ⟨[0], 1, 1, 0⟩).sess.audioBuffer = []) ∧
    (handleAudioFrame 1 initSystem ⟨[7], 2, 5, 0⟩).sess.audioBuffer
      = initSystem.sess.audioBuffer ++ [7] :=
  ⟨(flush_atomic_and_full_drain 1 initSystem ⟨[0], 1, 1, 0⟩ none).1 (by decide),
   (flush_atomic_and_full_drain 1 initSystem ⟨[7], 2, 5, 0⟩ none).2.1 (by decide)⟩

/-- C3: over any run, the chunks consumed by flushes followed by the
samples still pending are exactly the samples of all frames in arrival
order (no reordering, loss or duplication), and in particular the counts
balance. -/
theorem sample_conservation (cs0 : ℚ) (evs : List Event) :
    (run cs0 evs).flushed.flatten ++ (run cs0 evs).sess.audioBuffer = framesData evs ∧
    ((run cs0 evs).flushed.map List.length).sum + (run cs0 evs).sess.audioBuffer.length
      = (framesData evs).length := by
  have h1 : (run cs0 evs).flushed.flatten ++ (run cs0 evs).sess.audioBuffer
      = framesData evs := by
    simpa [run, initSystem, initSession] using foldl_conserve cs0 evs initSystem
  refine ⟨h1, ?_⟩
  simpa [List.length_append, List.length_flatten] using congrArg List.length h1

/-! ### Flush-policy characterizations -/

theorem pauseTrigger_iff (cs0 : ℚ) (s : SessionState) (now : ℤ) :
    pauseTrigger cs0 s now = true ↔
      s.speaking = true ∧
      (s.lastVoiceMs = none ∨ s.lastVoiceMs = some 0 ∨
        ∃ v : ℤ, s.lastVoiceMs = some v ∧ 450 ≤ now - v) ∧
      minUtteranceSamples cs0 s ≤ (s.audioBuffer.length : ℤ) := by
  unfold pauseTrigger silenceGapGE450 jsTruthyInt
  cases hlv : s.lastVoiceMs with
  | none => simp
  | some v =>
    by_cases hv : v = 0
    · subst hv
      simp
    · simp [hv, and_assoc]

theorem handleAudioFrame_speaking (cs0 : ℚ) (st : SystemState) (f : AudioFrame) :
    (handleAudioFrame cs0 st f).sess.speaking
      = (st.sess.speaking || decide (vadOn ≤ f.level)) := by
  rcases handleAudioFrame_cases cs0 st f with h | h <;>
    rw [h] <;> exact frameSync_speaking _ _

theorem speaking_stays_false (cs0 : ℚ) :
    ∀ (fs : List AudioFrame) (st : SystemState), (∀ f ∈ fs, f.level < vadOn) →
      st.sess.speaking = false →
      ((fs.map Event.frame).foldl (step cs0) st).sess.speaking = false := by
  intro fs
  induction fs with
  | nil => intro st _ h; exact h
  | cons f fs ih =>
    intro st hlv h
    simp only [List.map_cons, List.foldl_cons]
    apply ih _ (fun g hg => hlv g (List.mem_cons_of_mem f hg))
    show (handleAudioFrame cs0 st f).sess.speaking = false
    rw [handleAudioFrame_speaking, h]
    simpa using not_le.mpr (hlv f (List.mem_cons_self f fs))

theorem completeTranscription_sampleRate (st : SystemState) (r : Option String) :
    (completeTranscription st r).sess.sampleRate = st.sess.sampleRate := by
  unfold completeTranscription
  split
  · rfl
  · show (finalizeDispatch _).sampleRate = _
    unfold finalizeDispatch
    simp [applyTranscriptionResult_sampleRate]

theorem completeTranscription_levels (st : SystemState) (r : Option String) :
    (completeTranscription st r).sess.levels = st.sess.levels := by
  unfold completeTranscription
  split
  · rfl
  · show (finalizeDispatch _).levels = _
    unfold finalizeDispatch
    simp [applyTranscriptionResult_levels]

theorem completeTranscription_frameCount (st : SystemState) (r : Option String) :
    (completeTranscription st r).sess.frameCount = st.sess.frameCount := by
  unfold completeTranscription
  split
  · rfl
  · show (finalizeDispatch _).frameCount = _
    unfold finalizeDispatch
    simp [applyTranscriptionResult_frameCount]

theorem jsTrim_hello : jsTrim ("hello") = ("hello") := by decide

/-- C4 (amended): the Pause trigger fires exactly when the VAD is
`Speaking`, the pending buffer meets the minimum-utterance floor, and the
silence gap test passes, where the gap is infinite (trivially ≥ 450 ms)
not only when `lastVoiceMs` is unset but also when it equals timestamp 0
(JavaScript truthiness of the cell); for a set, nonzero `lastVoiceAt`,
an elapsed gap of 449 ms must not trigger and 450 ms must. -/
theorem pause_trigger_fires_iff (cs0 : ℚ) (s : SessionState) (now : ℤ) :
    (pauseTrigger cs0 s now = true ↔
      s.speaking = true ∧
      (s.lastVoiceMs = none ∨ s.lastVoiceMs = some 0 ∨
        ∃ v : ℤ, s.lastVoiceMs = some v ∧ 450 ≤ now - v) ∧
      minUtteranceSamples cs0 s ≤ (s.audioBuffer.length : ℤ)) ∧
    (∀ v : ℤ, v ≠ 0 → s.speaking = true → s.lastVoiceMs = some v →
      minUtteranceSamples cs0 s ≤ (s.audioBuffer.length : ℤ) →
      pauseTrigger cs0 s (v + 449) = false ∧ pauseTrigger cs0 s (v + 450) = true) := by
  refine ⟨pauseTrigger_iff cs0 s now, fun v hv hsp hlv hlen => ⟨?_, ?_⟩⟩
  · rw [Bool.eq_false_iff]
    intro h
    rcases ((pauseTrigger_iff cs0 s (v + 449)).1 h).2.1 with hc | hc | ⟨w, hw, hge⟩
    · rw [hlv] at hc
      exact Option.noConfusion hc
    · rw [hlv] at hc
      exact hv (Option.some.injEq _ _ ▸ hc)
    · rw [hlv] at hw
      have : w = v := (Option.some.injEq _ _ ▸ hw.symm)
      omega
  · exact (pauseTrigger_iff cs0 s (v + 450)).2
      ⟨hsp, Or.inr (Or.inr ⟨v, hlv, by omega⟩), hlen⟩

/-- Counterexample to C4 as stated: on the very frame that enters
`Speaking` at timestamp 0, `lastVoiceMs` is set to 0, which is falsy in
JavaScript, so `silenceGapMs` evaluates to `Infinity` and the Pause
trigger fires even though the elapsed time since `lastVoiceAt` is
0 ms < 450 ms (with the floor met and the VAD `Speaking`). -/
theorem pause_trigger_counterexample :
    pauseTrigger 2 (frameSync initSession ⟨[1/10, 1/10], 0, 2, 3/100⟩) 0 = true ∧
    (frameSync initSession ⟨[1/10, 1/10], 0, 2, 3/100⟩).speaking = true ∧
    (frameSync initSession ⟨[1/10, 1/10], 0, 2, 3/100⟩).lastVoiceMs = some 0 ∧
    minUtteranceSamples 2 (frameSync initSession ⟨[1/10, 1/10], 0, 2, 3/100⟩)
      ≤ ((frameSync initSession ⟨[1/10, 1/10], 0, 2, 3/100⟩).audioBuffer.length : ℤ) ∧
    ¬(450 ≤ (0 : ℤ) - 0) := by decide

/-- Witness for C4 (amended): with `lastVoiceAt = 1000`, the floor met
and the VAD speaking, the trigger is off at elapsed 449 ms and on at
450 ms. -/
theorem pause_trigger_fires_iff_witness :
    pauseTrigger 2 ⟨0, "", [0, 0], [], some 2, "", true, some 1000, false⟩ (1000 + 449)
        = false ∧
    pauseTrigger 2 ⟨0, "", [0, 0], [], some 2, "", true, some 1000, false⟩ (1000 + 450)
        = true :=
  (pause_trigger_fires_iff 2 ⟨0, "", [0, 0], [], some 2, "", true, some 1000, false⟩ 0).2
    1000 (by decide) rfl rfl (by decide)

/-- C5: once the sample rate is latched (nonzero), the Duration trigger
fires exactly when the pending buffer holds at least
`floor(sr * clamp(chunkSeconds))` samples — 32000 for `sr = 16000`,
`chunkSeconds = 2`; and on an all-silent stream (loudness 0 on every
frame) the VAD never enters `Speaking`, so the Pause trigger never
fires. -/
theorem duration_trigger_fires_iff :
    (∀ (cs0 : ℚ) (s : SessionState) (n : ℕ), s.sampleRate = some n → n ≠ 0 →
      (durationTrigger cs0 s = true ↔
        ⌊(n : ℚ) * clampChunk cs0⌋ ≤ (s.audioBuffer.length : ℤ))) ∧
    (⌊(16000 : ℚ) * clampChunk 2⌋ = 32000) ∧
    (∀ (cs0 : ℚ) (fs : List AudioFrame), (∀ f ∈ fs, f.level = 0) →
      (run cs0 (fs.map Event.frame)).sess.speaking = false) ∧
    (∀ (cs0 : ℚ) (s : SessionState) (now : ℤ), s.speaking = false →
      pauseTrigger cs0 s now = false) := by
  refine ⟨?_, by decide, ?_, ?_⟩
  · intro cs0 s n hs hn
    unfold durationTrigger neededSamples jsTruthyNat
    rw [hs]
    simp [hn]
  · intro cs0 fs hlv
    apply speaking_stays_false cs0 fs initSystem
    · intro f hf
      rw [hlv f hf]
      norm_num [vadOn]
    · rfl
  · intro cs0 s now h
    unfold pauseTrigger
    rw [h]
    rfl

/-- Witness for C5: a latched 1 Hz session whose two-sample buffer meets
the one-second chunk; a one-frame silent stream whose VAD stays silent;
and a non-speaking state whose Pause trigger is off. -/
theorem duration_trigger_fires_iff_witness :
    (durationTrigger 1 ⟨0, "", [0, 0], [], some 1, "", false, none, false⟩ = true ↔
      ⌊(1 : ℚ) * clampChunk 1⌋
        ≤ ((⟨0, "", [0, 0], [], some 1, "", false, none, false⟩ :
              SessionState).audioBuffer.length : ℤ)) ∧
    (run 2 ([(⟨[], 0, 16000, 0⟩ : AudioFrame)].map Event.frame)).sess.speaking = false ∧
    pauseTrigger 2 ⟨0, "", [], [], none, "", false, none, false⟩ 5 = false :=
  ⟨duration_trigger_fires_iff.1 1 ⟨0, "", [0, 0], [], some 1, "", false, none, false⟩ 1
      rfl (by decide),
   duration_trigger_fires_iff.2.2.1 2 [⟨[], 0, 16000, 0⟩] (by decide),
   duration_trigger_fires_iff.2.2.2 2 ⟨0, "", [], [], none, "", false, none, false⟩ 5 rfl⟩

/-- C6: a successful result is trimmed; a non-empty trimmed result that
differs from the last accepted text is appended space-separated and
becomes the last accepted text; an empty or repeated result leaves the
session unchanged — so two consecutive successful calls both returning
"hello" put "hello" into the transcript exactly once. -/
theorem transcript_dedup (s : SessionState) (text : String) :
    (jsTrim text ≠ "" → jsTrim text ≠ s.lastSnippet →
      (applyTranscriptionResult s (some text)).transcript
          = s.transcript ++ (if s.transcript = "" then "" else " ") ++ jsTrim text ∧
      (applyTranscriptionResult s (some text)).lastSnippet = jsTrim text) ∧
    ((jsTrim text = "" ∨ jsTrim text = s.lastSnippet) →
      applyTranscriptionResult s (some text) = s) ∧
    (s.transcript = "" → s.lastSnippet ≠ ("hello") →
      (applyTranscriptionResult
          (finalizeDispatch (applyTranscriptionResult s (some ("hello"))))
          (some ("hello"))).transcript = ("hello")) := by
  refine ⟨fun h1 h2 => ?_, fun h => ?_, fun htr hls => ?_⟩
  · unfold applyTranscriptionResult
    dsimp only
    rw [if_pos ⟨h1, h2⟩]
    exact ⟨rfl, rfl⟩
  · unfold applyTranscriptionResult
    dsimp only
    have hcond : ¬(jsTrim text ≠ "" ∧ jsTrim text ≠ s.lastSnippet) := by
      intro hc
      rcases h with h | h
      · exact hc.1 h
      · exact hc.2 h
    rw [if_neg hcond]
  · have e1 : applyTranscriptionResult s (some ("hello"))
        = { s with
            transcript := s.transcript ++ (if s.transcript = "" then "" else " ")
              ++ ("hello"),
            lastSnippet := ("hello") } := by
      unfold applyTranscriptionResult
      dsimp only
      rw [jsTrim_hello, if_pos ⟨by decide, Ne.symm hls⟩]
    rw [e1]
    unfold finalizeDispatch applyTranscriptionResult
    dsimp only
    rw [jsTrim_hello, if_neg (fun hc => hc.2 rfl), htr]
    dsimp only
    decide

/-- Witness for C6: on a fresh session, " hi there " is trimmed and
appended; a whitespace-only result is discarded; two successive "hello"
results yield the transcript "hello" exactly once. -/
theorem transcript_dedup_witness :
    ((applyTranscriptionResult initSession (some (" hi there "))).transcript
        = initSession.transcript ++ (if initSession.transcript = "" then "" else " ")
            ++ jsTrim (" hi there ") ∧
     (applyTranscriptionResult initSession (some (" hi there "))).lastSnippet
        = jsTrim (" hi there ")) ∧
    applyTranscriptionResult initSession (some ("   ")) = initSession ∧
    (applyTranscriptionResult
        (finalizeDispatch (applyTranscriptionResult initSession (some ("hello"))))
        (some ("hello"))).transcript = ("hello") :=
  ⟨(transcript_dedup initSession (" hi there ")).1 (by decide) (by decide),
   (transcript_dedup initSession ("   ")).2.1 (Or.inl (by decide)),
   (transcript_dedup initSession ("hello")).2.2 rfl (by decide)⟩

/-- C7: a failed transcription call mutates neither the transcript nor
the last accepted text and issues no retry (the outstanding list just
shrinks); and every completion, success or failure, ends by clearing
`speaking` and `lastVoiceMs` and dropping the `transcribing` guard. -/
theorem failure_no_mutation_and_finalize (sess : SessionState) (c : Chunk)
    (rest : List Chunk) (fl : List (List ℚ)) (r : Option String) :
    (completeTranscription ⟨sess, c :: rest, fl⟩ none).sess.transcript = sess.transcript ∧
    (completeTranscription ⟨sess, c :: rest, fl⟩ none).sess.lastSnippet = sess.lastSnippet ∧
    (completeTranscription ⟨sess, c :: rest, fl⟩ r).inflight = rest ∧
    (completeTranscription ⟨sess, c :: rest, fl⟩ r).flushed = fl ∧
    (completeTranscription ⟨sess, c :: rest, fl⟩ r).sess.speaking = false ∧
    (completeTranscription ⟨sess, c :: rest, fl⟩ r).sess.lastVoiceMs = none ∧
    (completeTranscription ⟨sess, c :: rest, fl⟩ r).sess.transcribing = false := by
  unfold completeTranscription applyTranscriptionResult finalizeDispatch
  exact ⟨rfl, rfl, rfl, rfl, rfl, rfl, rfl⟩

/-- C8: the effective chunk length is `max(1, min(6, v))` both in the
flush policy (line 116) and in the settings panel (line 114): values
outside [1, 6] are clamped, not rejected, as verified on
{-5, 0, 1, 3.5, 6, 100}; the policy's two sample thresholds are computed
from the clamped value. -/
theorem chunk_seconds_clamp :
    (∀ v : ℚ, clampChunk v = max 1 (min 6 v) ∧ settingsClampChunk v = clampChunk v) ∧
    (∀ (v : ℚ) (s : SessionState) (n : ℕ), s.sampleRate = some n → n ≠ 0 →
      neededSamples v s = ⌊(n : ℚ) * max 1 (min 6 v)⌋ ∧
      minUtteranceSamples v s = ⌊(n : ℚ) * min 1 (max 1 (min 6 v))⌋) ∧
    clampChunk (-5) = 1 ∧ clampChunk 0 = 1 ∧ clampChunk 1 = 1 ∧
    clampChunk (7/2) = 7/2 ∧ clampChunk 6 = 6 ∧ clampChunk 100 = 6 := by
  refine ⟨fun v => ⟨rfl, rfl⟩, ?_, by decide, by decide, by decide, by decide, by decide,
    by decide⟩
  intro v s n hs hn
  unfold neededSamples minUtteranceSamples jsTruthyNat clampChunk
  rw [hs]
  simp [hn]

/-- Witness for C8: the clamped thresholds at `chunkSeconds = 5/2` on a
16 kHz session. -/
theorem chunk_seconds_clamp_witness :
    neededSamples (5/2) ⟨0, "", [], [], some 16000, "", false, none, false⟩
        = ⌊(16000 : ℚ) * max 1 (min 6 (5/2))⌋ ∧
    minUtteranceSamples (5/2) ⟨0, "", [], [], some 16000, "", false, none, false⟩
        = ⌊(16000 : ℚ) * min 1 (max 1 (min 6 (5/2)))⌋ :=
  chunk_seconds_clamp.2.1 (5/2) ⟨0, "", [], [], some 16000, "", false, none, false⟩
    16000 rfl (by decide)

/-- C10: completing a transcription call (success or failure) leaves the
pending sample buffer, the latched sample rate, the levels window and the
frame counter untouched — samples that arrived during the in-flight call
are preserved for the next flush; only the transcript, last accepted
text, VAD fields and the guard may change. -/
theorem completion_touches_only_dispatch_fields (sess : SessionState) (c : Chunk)
    (rest : List Chunk) (fl : List (List ℚ)) (r : Option String) :
    (completeTranscription ⟨sess, c :: rest, fl⟩ r).sess.audioBuffer = sess.audioBuffer ∧
    (completeTranscription ⟨sess, c :: rest, fl⟩ r).sess.sampleRate = sess.sampleRate ∧
    (completeTranscription ⟨sess, c :: rest, fl⟩ r).sess.levels = sess.levels ∧
    (completeTranscription ⟨sess, c :: rest, fl⟩ r).sess.frameCount = sess.frameCount ∧
    (completeTranscription ⟨sess, c :: rest, fl⟩ r).flushed = fl :=
  ⟨completeTranscription_audioBuffer ⟨sess, c :: rest, fl⟩ r,
   completeTranscription_sampleRate ⟨sess, c :: rest, fl⟩ r,
   completeTranscription_levels ⟨sess, c :: rest, fl⟩ r,
   completeTranscription_frameCount ⟨sess, c :: rest, fl⟩ r,
   completeTranscription_flushed ⟨sess, c :: rest, fl⟩ r⟩

/-- C9: the level meter outputs the RMS of the frame's samples, divided
by 32767 when the RMS exceeds 1, clamped into [0, 1]; an empty frame
contributes exactly 0 (the denominator is taken as at least 1, so no
division by zero occurs). -/
theorem level_meter_normalized (data : List ℝ) :
    0 ≤ normalizedLevel data ∧ normalizedLevel data ≤ 1 ∧
    normalizedLevel [] = 0 ∧
    (1 < rmsLevel data → normalizedLevel data = min 1 (rmsLevel data / 32767)) := by
  have hrms : 0 ≤ rmsLevel data := Real.sqrt_nonneg _
  refine ⟨?_, ?_, ?_, fun h => ?_⟩
  · unfold normalizedLevel
    split_ifs with h
    · exact le_min (by norm_num) (by positivity)
    · exact le_min (by norm_num) hrms
  · unfold normalizedLevel
    split_ifs <;> exact min_le_left _ _
  · have h0 : rmsLevel [] = 0 := by
      unfold rmsLevel
      norm_num
    unfold normalizedLevel
    rw [h0]
    norm_num
  · unfold normalizedLevel
    rw [if_pos h]

/-- Witness for C9: the frame [2, 2] has RMS 2 > 1 and is therefore
normalized by the 32767 division. -/
theorem level_meter_normalized_witness :
    1 < rmsLevel [2, 2] ∧ normalizedLevel [2, 2] = min 1 (rmsLevel [2, 2] / 32767) := by
  have h2 : rmsLevel [2, 2] = 2 := by
    unfold rmsLevel
    have e1 : (([2, 2] : List ℝ).foldl (fun acc v => acc + v * v) 0)
        / max 1 ((([2, 2] : List ℝ).length : ℕ) : ℝ) = 4 := by
      norm_num [List.foldl, max_eq_right]
    rw [e1, show (4 : ℝ) = 2 ^ 2 by norm_num, Real.sqrt_sq (by norm_num : (0 : ℝ) ≤ 2)]
  constructor
  · rw [h2]
    norm_num
  · exact (level_meter_normalized [2, 2]).2.2.2 (by rw [h2]; norm_num)

end Oatmeal
